import Mathlib

/-
  Verification of the redirectdog/dalmatian request gateway and checkout saga.

  This file shallowly embeds the core of the service (src/main.rs and
  src/routes/**) in Lean 4:
  * the uniform error taxonomy (`Err`) and the central error-to-response
    mapping of `handle_request` (`errorResponse`);
  * the query-executor discipline: `tack_on` and the prepare/query chain used
    inside every `db_pool.run` block (`runQueryOp`, `poolRun`);
  * the bearer-token auth gate `rd_login`;
  * the path normalization and top-level dispatch of `handle_request`
    (`normalizePath`, `routeTop`);
  * the checkout saga `checkout_sessions_path` (POST handler), both as a
    sequentialized state-transformer with an injected infrastructure
    environment and as a futures-combinator tree with interleaving semantics
    (`sagaTraces`) capturing the `join` combinators of the source;
  * the tier-cache refresh cycle `retrieve_plans` as the sequence of cache
    states its writes make observable (`retrievePlansStates`);
  * the redirect PATCH handler `redirect_path`.

  Databases are modelled as lists of rows; fallible infrastructure (pool,
  statement preparation, query execution, the external payment provider) is
  modelled by explicit outcome parameters, so every code path of the source,
  including error paths, is reachable in the model.
-/

/-- Mirrors `crate::Error` (src/main.rs lines 7-13).  `Custom` carries the
prebuilt response; every `Error::Custom` construction site in the source sets
only a status and a body (never headers), so it is embedded as the pair.
`Internal` carries the boxed cause, embedded as its message text. -/
inductive Err where
  | NotFound
  | InvalidMethod
  | Custom (status : Nat) (body : String)
  | Internal (msg : String)
  | Unimplemented
deriving DecidableEq

/-- An HTTP response: status code, header list, body
(mirrors `hyper::Response` as the handlers build it). -/
structure Response where
  status : Nat
  headers : List (String × String)
  body : String
deriving DecidableEq

/-- The central error-to-response stage: the `or_else` closure at the end of
`handle_request` (src/main.rs lines 217-254).  A `Custom` error is returned as
the stored response; the other variants map to fixed status/body pairs.  No
headers are attached here. -/
def errorResponse : Err → Response
  | .Custom s b => ⟨s, [], b⟩
  | .NotFound => ⟨404, [], "Not Found"⟩
  | .InvalidMethod => ⟨405, [], "Method Not Allowed"⟩
  | .Internal _ => ⟨500, [], "Internal Server Error"⟩
  | .Unimplemented => ⟨500, [], "Internal Server Error"⟩

/-- Mirrors `tack_on` (src/main.rs lines 88-93): attach a value to both the
`Ok` and the `Err` branch of a result. -/
def tack_on {τ ε α : Type} (src : Except ε τ) (add : α) : Except (ε × α) (τ × α) :=
  match src with
  | .ok value => .ok (value, add)
  | .error err => .error (err, add)

/-- The shape shared by every `db_pool.run` block in the source
(e.g. src/main.rs lines 145-157):
`conn.prepare(..).then(|res| tack_on(res, conn)).and_then(|(stmt, conn)|
conn.query(..).then(|res| tack_on(res, conn)))`.
`prepareRes` is the outcome of statement preparation, `queryRes` the outcome
of executing the prepared statement (for a `query(..).into_future()` chain a
zero-row result is `Except.ok none`, not an error). -/
def runQueryOp {ε σ ρ γ : Type} (prepareRes : Except ε σ)
    (queryRes : σ → Except ε ρ) (conn : γ) : Except (ε × γ) (ρ × γ) :=
  (tack_on prepareRes conn).bind (fun p => tack_on (queryRes p.1) p.2)

/-- The connection carried by either branch of a `db_pool.run` operation
result. -/
def connOf {ε τ γ : Type} (r : Except (ε × γ) (τ × γ)) : γ :=
  match r with
  | .ok (_, c) => c
  | .error (_, c) => c

/-- Model of `bb8::Pool::run`: take a free connection (identified by a
number), run the operation, and put the connection the operation hands back
into the free list — in both the `Ok` and the `Err` case.  An empty free list
is the pool-timeout outcome (`bb8::RunError::TimedOut`). -/
def poolRun {ε τ : Type} (free : List Nat)
    (op : Nat → Except (ε × Nat) (τ × Nat)) : Option (Except ε τ × List Nat) :=
  match free with
  | [] => none
  | conn :: rest =>
    match op conn with
    | .ok (v, c) => some (.ok v, rest ++ [c])
    | .error (e, c) => some (.error e, rest ++ [c])

/-- Claim C5: for every query-executor operation (every `db_pool.run` block,
all of which have the `runQueryOp` shape), the connection acquired from the
pool is handed back exactly once on every outcome — successful query,
zero-rows result (`queryRes` returning `ok none`), statement-preparation
error, and execution error: the `tack_on` pattern returns the connection in
both the `Ok` and the `Err` branch of every step, so the very connection that
was acquired ends up back in the pool's free list. -/
theorem claimC5_thm {ε σ ρ : Type} (prepareRes : Except ε σ)
    (queryRes : σ → Except ε ρ) (conn : Nat) (rest : List Nat) :
    connOf (runQueryOp prepareRes queryRes conn) = conn ∧
    (poolRun (conn :: rest) (runQueryOp prepareRes queryRes)).map
        (fun x => x.2) = some (rest ++ [conn]) := by
  constructor
  · cases prepareRes with
    | error e => simp [runQueryOp, tack_on, connOf, Except.bind]
    | ok s =>
      cases h : queryRes s with
      | error e => simp [runQueryOp, tack_on, connOf, Except.bind, h]
      | ok v => simp [runQueryOp, tack_on, connOf, Except.bind, h]
  · cases prepareRes with
    | error e => simp [poolRun, runQueryOp, tack_on, Except.bind]
    | ok s =>
      cases h : queryRes s with
      | error e => simp [poolRun, runQueryOp, tack_on, Except.bind, h]
      | ok v => simp [poolRun, runQueryOp, tack_on, Except.bind, h]

/-- A row of the `logins` relation: `logins(token, user_id, created_at)`.
Tokens are stored here in the canonical form `parseUuid` produces. -/
structure LoginRow where
  token : String
  user_id : Int
deriving DecidableEq

/-- Model of `headers::Authorization::<Bearer>::decode` as used in `rd_login`
(src/main.rs lines 123-136): the header value must be a well-formed Bearer
credential `Bearer <token>`; on success the token text is returned, on
failure the constructed `BadRequest` error is discarded by the caller. -/
def decodeBearer (v : String) : Option String :=
  if ("Bearer ".toList).isPrefixOf v.toList then some ⟨v.toList.drop 7⟩
  else none

/-- Hex digit test used by the token-format (UUID) parser. -/
def isHexDigit (c : Char) : Bool :=
  c.isDigit || (('a' ≤ c) && (c ≤ 'f')) || (('A' ≤ c) && (c ≤ 'F'))

/-- Model of `str::parse::<uuid::Uuid>` (uuid crate, an external collaborator
of `rd_login`): accepts the simple (32 hex digits) and hyphenated
(8-4-4-4-12) forms, optionally prefixed by `urn:uuid:`, and returns the
canonical 128-bit value as 32 lowercase hex digits.  Anything else fails. -/
def parseUuid (s : String) : Option String :=
  let cs0 := s.toList
  let cs := if ("urn:uuid:".toList).isPrefixOf cs0 then cs0.drop 9 else cs0
  let hexpart := cs.filter (fun c => c != '-')
  if cs.length == 32 && cs.all isHexDigit then
    some ⟨cs.map Char.toLower⟩
  else if cs.length == 36 && cs.get? 8 == some '-' && cs.get? 13 == some '-'
      && cs.get? 18 == some '-' && cs.get? 23 == some '-'
      && hexpart.length == 32 && hexpart.all isHexDigit then
    some ⟨hexpart.map Char.toLower⟩
  else none

/-- The token extraction stage of `rd_login` (src/main.rs lines 123-142):
the optional `Authorization` header value is decoded as a Bearer credential
and the token parsed as a UUID; any failure along the way collapses to
`none`, matching the source's `None | Some(Err(_))` arm. -/
def tokenOfHeader (header : Option String) : Option String :=
  (header.bind decodeBearer).bind parseUuid

/-- The auth gate `rd_login` (src/main.rs lines 117-176).  `header` is the
raw `Authorization` header value (if any), `logins` the `logins` relation,
`dbOk` the outcome of the pooled lookup (`false` = pool/database error,
surfaced as `Internal`).  A missing or malformed header resolves to
anonymous (`ok none`); a well-formed token absent from `logins` is rejected
with the `Custom` 400 response the source builds at lines 159-167. -/
def rd_login (header : Option String) (logins : List LoginRow)
    (dbOk : Bool) : Except Err (Option Int) :=
  match tokenOfHeader header with
  | none => .ok none
  | some token =>
    if dbOk then
      match logins.find? (fun r => r.token == token) with
      | none => .error (.Custom 400 "Unrecognized authentication token")
      | some row => .ok (some row.user_id)
    else .error (.Internal "Database error")

/-- Claim C6: for every request whose `Authorization` header is absent, or
present but not a well-formed Bearer credential, or whose Bearer token does
not parse as the token format (a UUID), `rd_login` resolves to anonymous
(`ok none`) and never produces an error. -/
theorem claimC6_thm (header : Option String) (logins : List LoginRow)
    (dbOk : Bool)
    (h : header = none
      ∨ (∃ v, header = some v ∧ decodeBearer v = none)
      ∨ (∃ v t, header = some v ∧ decodeBearer v = some t ∧ parseUuid t = none)) :
    rd_login header logins dbOk = Except.ok none := by
  rcases h with h | ⟨v, hv, hd⟩ | ⟨v, t, hv, hd, hp⟩
  · simp [rd_login, tokenOfHeader, h]
  · simp [rd_login, tokenOfHeader, hv, hd]
  · simp [rd_login, tokenOfHeader, hv, hd, hp]

/-- Witness for claim C6 at a concrete malformed header: a `Basic` credential
is not a well-formed Bearer credential, so the gate resolves to anonymous. -/
theorem claimC6_witness :
    rd_login (some "Basic QWxhZGRpbg==") [⟨"00000000000000000000000000000000", 3⟩] true
      = Except.ok none :=
  claimC6_thm _ _ _ (Or.inr (Or.inl ⟨"Basic QWxhZGRpbg==", rfl, by decide⟩))

/-- Counterexample for claim C7: a well-formed Bearer token with no row in
`logins` makes `rd_login` report an error whose response status is 400
(BadRequest), not 401 (Unauthorized): the error is real, but it is not
surfaced with an Unauthorized status as the claim requires. -/
theorem claimC7_counterexample :
    rd_login (some "Bearer 123e4567-e89b-12d3-a456-426655440000") [] true
        = Except.error (Err.Custom 400 "Unrecognized authentication token")
      ∧ (errorResponse (Err.Custom 400 "Unrecognized authentication token")).status = 400
      ∧ (400 : Nat) ≠ 401 := by
  refine ⟨rfl, rfl, by decide⟩

/-- Claim C7 (amended): for every request carrying a well-formed Bearer token
that has no row in the `logins` relation, the auth gate reports an
invalid-token error rather than resolving to anonymous — but the error is the
`Custom` response with status 400 (BadRequest) and body "Unrecognized
authentication token", not a member of the Unauthorized (401) class. -/
theorem claimC7_thm (header : Option String) (t : String)
    (logins : List LoginRow)
    (ht : tokenOfHeader header = some t)
    (habsent : logins.find? (fun r => r.token == t) = none) :
    rd_login header logins true
        = Except.error (Err.Custom 400 "Unrecognized authentication token")
      ∧ (errorResponse (Err.Custom 400 "Unrecognized authentication token")).status
          ≠ 401 := by
  constructor
  · simp [rd_login, ht, habsent]
  · simp [errorResponse]

/-- Witness for the amended claim C7 at a concrete token: the token is
well-formed but matches no row (the single login row holds a different
token), so the gate reports the 400 invalid-token error. -/
theorem claimC7_witness :
    rd_login (some "Bearer 123e4567-e89b-12d3-a456-426655440000")
        [⟨"aaaaaaaabbbbccccddddeeeeeeeeeeee", 9⟩] true
      = Except.error (Err.Custom 400 "Unrecognized authentication token") :=
  (claimC7_thm (some "Bearer 123e4567-e89b-12d3-a456-426655440000")
    "123e4567e89b12d3a456426655440000"
    [⟨"aaaaaaaabbbbccccddddeeeeeeeeeeee", 9⟩] (by decide) (by decide)).1

/-- Mirrors `consume_path` (src/main.rs lines 178-184) on paths as character
lists: strip a literal route segment off the front of the remaining path. -/
def consume_path (path pre : List Char) : Option (List Char) :=
  if pre.isPrefixOf path then some (path.drop pre.length) else none

/-- The trailing-`"//"` test `path.ends_with("//")` used by
`handle_request`. -/
def endsWithDoubleSlash (l : List Char) : Bool :=
  l.reverse.take 2 == ['/', '/']

/-- The leading-slash strip `if path.starts_with('/')`. -/
def stripLeadingSlash : List Char → List Char
  | '/' :: rest => rest
  | l => l

/-- The URI path normalization at the top of `handle_request`
(src/main.rs lines 196-203): append `'/'`, collapse a resulting double
trailing slash by dropping the last character, then strip the leading
`'/'`. -/
def normalizePath (p : List Char) : List Char :=
  let q := p ++ ['/']
  let q := if endsWithDoubleSlash q then q.dropLast else q
  stripLeadingSlash q

/-- The top-level route branches of `handle_request`. -/
inductive RouteBranch where
  | logins
  | users
  | subscriptionTiers
  | settings
  | notFound
deriving DecidableEq

/-- The top-level dispatch of `handle_request` (src/main.rs lines 205-215)
over an already-normalized path: the first matching `consume_path` branch
wins; no match is `NotFound`. -/
def routeTop (p : List Char) : RouteBranch :=
  match consume_path p ("logins/".toList) with
  | some _ => .logins
  | none =>
    match consume_path p ("users/".toList) with
    | some _ => .users
    | none =>
      match consume_path p ("subscription_tiers/".toList) with
      | some _ => .subscriptionTiers
      | none =>
        match consume_path p ("settings/".toList) with
        | some _ => .settings
        | none => .notFound

/-- Claim C9: dispatch is invariant under a single trailing slash — for every
request path that does not already end in `'/'`, the normalized path with and
without an appended trailing slash is the same string, so both reach the same
route branch (and hence the same handler and response). -/
theorem claimC9_thm (p : List Char) (h : p.getLast? ≠ some '/') :
    normalizePath (p ++ ['/']) = normalizePath p ∧
    routeTop (normalizePath (p ++ ['/'])) = routeTop (normalizePath p) := by
  have hnorm : normalizePath (p ++ ['/']) = normalizePath p := by
    have h1 : endsWithDoubleSlash (p ++ ['/', '/']) = true := by
      simp [endsWithDoubleSlash, List.reverse_append]
    have h2 : endsWithDoubleSlash (p ++ ['/']) = false := by
      simp only [endsWithDoubleSlash, List.reverse_append]
      cases hp : p.reverse with
      | nil => decide
      | cons c t =>
        have hc : c ≠ '/' := by
          intro hceq
          apply h
          rw [← List.head?_reverse, hp, hceq]
          rfl
        simp [List.take, hc]
    simp [normalizePath, h1, h2, List.dropLast_concat]
  exact ⟨hnorm, by rw [hnorm]⟩

/-- Witness for claim C9 at the concrete pair `/users` vs `/users/`: both
normalize to `users/` and both dispatch to the users branch. -/
theorem claimC9_witness :
    normalizePath ("/users".toList ++ ['/']) = normalizePath ("/users".toList) ∧
    routeTop (normalizePath ("/users".toList ++ ['/']))
      = routeTop (normalizePath ("/users".toList)) :=
  claimC9_thm ("/users".toList) (by decide)

/-- The six named steps of the checkout saga
(src/routes/users/checkout_sessions.rs). -/
inductive SagaStep where
  | validateTier
  | insertIntent
  | emailLookup
  | externalCall
  | updateStripeId
  | respond
deriving DecidableEq

/-- A futures-combinator expression over saga steps: `pureF` is an immediate
value (synchronous code contributing no suspension point), `step` a single
asynchronous operation, `andThen` sequential composition (`and_then`), and
`joinF` the `join` combinator, which polls both sides concurrently. -/
inductive Fut where
  | pureF : Fut
  | step : SagaStep → Fut
  | andThen : Fut → Fut → Fut
  | joinF : Fut → Fut → Fut

/-- All interleavings of two step sequences (the possible completion orders
of the two sides of a `join`). -/
def interleavings : List SagaStep → List SagaStep → List (List SagaStep)
  | [], ys => [ys]
  | x :: xs, [] => [x :: xs]
  | x :: xs, y :: ys =>
    ((interleavings xs (y :: ys)).map (fun t => x :: t))
      ++ ((interleavings (x :: xs) ys).map (fun t => y :: t))
termination_by xs ys => xs.length + ys.length

/-- The set of step orders a combinator expression can produce: `and_then`
sequences its sides, `join` allows any interleaving of its sides. -/
def traces : Fut → List (List SagaStep)
  | .pureF => [[]]
  | .step s => [[s]]
  | .andThen a b =>
    (traces a).flatMap (fun ta => (traces b).map (fun tb => ta ++ tb))
  | .joinF a b =>
    (traces a).flatMap (fun ta => (traces b).flatMap (fun tb => interleavings ta tb))

/-- The combinator structure of the checkout saga's POST handler
(src/routes/users/checkout_sessions.rs lines 30-218): the tier-validation
query is `join`ed with the synchronous `ensure_me`/settings checks, then
`and_then` the intent-row insert; that whole chain is `join`ed with the email
lookup (line 101: `.join(db_pool.run(...SELECT email...))`), and only then do
the external call, the stripe_id update and the response follow
sequentially. -/
def checkoutSagaFut : Fut :=
  .andThen
    (.joinF
      (.andThen (.joinF (.step .validateTier) .pureF) (.step .insertIntent))
      (.step .emailLookup))
    (.andThen (.step .externalCall)
      (.andThen (.step .updateStripeId) (.step .respond)))

/-- The possible step orders of one checkout request. -/
def sagaTraces : List (List SagaStep) :=
  traces checkoutSagaFut

/-- Counterexample for claim C3: the saga's six steps are not strictly
sequential — the schedule in which the email lookup completes before the tier
validation is a possible execution of the handler's combinator chain, because
the email-lookup future is `join`ed with (not sequenced after) the
validate-then-insert chain.  This order differs from the claimed unique
sequential order. -/
theorem claimC3_counterexample :
    [SagaStep.emailLookup, SagaStep.validateTier, SagaStep.insertIntent,
      SagaStep.externalCall, SagaStep.updateStripeId, SagaStep.respond]
        ∈ sagaTraces
      ∧ [SagaStep.emailLookup, SagaStep.validateTier, SagaStep.insertIntent,
          SagaStep.externalCall, SagaStep.updateStripeId, SagaStep.respond]
        ≠ [SagaStep.validateTier, SagaStep.insertIntent, SagaStep.emailLookup,
            SagaStep.externalCall, SagaStep.updateStripeId, SagaStep.respond] := by
  constructor
  · simp [sagaTraces, checkoutSagaFut, traces, interleavings]
  · simp

/-- Claim C3 (amended): within one checkout request the possible step orders
are exactly three: tier validation always precedes the intent insert, and the
external call, stripe_id update and response always run sequentially after
validation, insert and email lookup have all completed — but the email
lookup is `join`ed with the validate-then-insert chain, so it may complete
before, between, or after those two steps rather than strictly after the
insert. -/
theorem claimC3_thm :
    sagaTraces =
      [[SagaStep.validateTier, SagaStep.insertIntent, SagaStep.emailLookup,
          SagaStep.externalCall, SagaStep.updateStripeId, SagaStep.respond],
        [SagaStep.validateTier, SagaStep.emailLookup, SagaStep.insertIntent,
          SagaStep.externalCall, SagaStep.updateStripeId, SagaStep.respond],
        [SagaStep.emailLookup, SagaStep.validateTier, SagaStep.insertIntent,
          SagaStep.externalCall, SagaStep.updateStripeId, SagaStep.respond]] := by
  simp [sagaTraces, checkoutSagaFut, traces, interleavings]

/-- A row of `subscription_tiers` as the checkout handler reads it
(`SELECT stripe_plan FROM subscription_tiers WHERE id=$1`). -/
structure TierRow where
  id : Int
  stripe_plan : Option String
deriving DecidableEq

/-- A row of `users` as the checkout handler reads it
(`SELECT email FROM users WHERE id=$1`). -/
structure UserRow where
  id : Int
  email : String
deriving DecidableEq

/-- A row of `subscription_checkout_sessions`
(`id, user_id, tier_id, timestamp, stripe_id`; the timestamp is not read by
any in-scope code and is omitted). -/
structure SessionRow where
  id : Int
  user_id : Int
  tier_id : Int
  stripe_id : Option String
deriving DecidableEq

/-- The database state the checkout saga touches.  `nextSessionId` models the
serial `id` column of `subscription_checkout_sessions` (the value the next
`INSERT .. RETURNING id` returns). -/
structure DB where
  tiers : List TierRow
  users : List UserRow
  sessions : List SessionRow
  nextSessionId : Int
deriving DecidableEq

/-- `SELECT stripe_plan FROM subscription_tiers WHERE id=$1` followed by
`.into_future()`: `none` = zero rows, `some plan` = the row's (nullable)
`stripe_plan` column. -/
def selectTierPlan (db : DB) (tid : Int) : Option (Option String) :=
  (db.tiers.find? (fun t => t.id == tid)).map (fun t => t.stripe_plan)

/-- `SELECT email FROM users WHERE id=$1` followed by `.into_future()`. -/
def selectEmail (db : DB) (uid : Int) : Option String :=
  (db.users.find? (fun u => u.id == uid)).map (fun u => u.email)

/-- Injected infrastructure outcomes for one checkout execution: `..InfraOk`
flags are pool/database outcomes of the respective `db_pool.run` block
(`false` = the block fails with a database error, surfaced as `Internal`);
`stripeResponse` is the external provider outcome — `none` = transport
failure or a non-2xx status, `some none` = 2xx with an unparseable body,
`some (some s)` = 2xx carrying session identifier `s`. -/
structure CheckoutEnv where
  validateInfraOk : Bool
  insertInfraOk : Bool
  emailInfraOk : Bool
  stripeResponse : Option (Option String)
  updateInfraOk : Bool
deriving DecidableEq

/-- The request context of a checkout: the `is_me` flag computed by
`user_path`, and the two settings the handler requires
(src/routes/users/checkout_sessions.rs lines 64-75). -/
structure CheckoutCtx where
  is_me : Bool
  stripe_secret_key : Option String
  frontend_host : Option String
deriving DecidableEq

/-- Observable operations of one checkout execution, in order of
occurrence.  `emailQuery` is `join`ed with the validate/insert chain in the
source; its position among the earlier events is schedule-dependent (see
`sagaTraces`), and the theorems below only rely on orderings that hold in
every schedule. -/
inductive Ev where
  | validateQuery (tierId : Int)
  | insertIntent (sessionId userId tierId : Int) (stripeId : Option String)
  | emailQuery (userId : Int)
  | externalCall
  | updateStripeId (sessionId : Int) (stripeId : String)
  | respond
deriving DecidableEq

/-- The outcome of running a handler: a response, a domain error handed to
the central error-mapping stage, or a Rust panic (no response at all). -/
inductive RunResult where
  | ok (r : Response)
  | err (e : Err)
  | panicked
deriving DecidableEq

/-- The JSON body `{"stripe_session": s}` the checkout handler serializes on
success. -/
def jsonStripeSession (s : String) : String :=
  "\x7b\"stripe_session\":\"" ++ s ++ "\"\x7d"

/-- The POST checkout handler `checkout_sessions_path`
(src/routes/users/checkout_sessions.rs lines 30-218), sequentialized.
Control flow mirrors the source's combinator chain:
1. parse the request body (`subscription_tier`);
2. run the tier query `join`ed with the synchronous `ensure_me`/settings
   checks — the synchronous side resolves first when the database round trip
   is still pending, so an `ensure_me` or settings failure surfaces before
   the tier-query outcome;
3. zero rows → `Custom` 400 "No such subscription tier"; a row whose
   `stripe_plan` is NULL → `row.get::<_, String>(0)` panics;
4. insert the intent row (`stripe_id` NULL, id from `RETURNING id`);
5. the email lookup (`join`ed in the source; sequenced here, see `Ev`);
6. the external checkout-session-creation call;
7. on success, `UPDATE subscription_checkout_sessions SET stripe_id=$1 WHERE
   id=$2` and respond with the serialized session id.
Returns (outcome, final database, event list). -/
def checkout_sessions_path (db : DB) (ctx : CheckoutCtx) (env : CheckoutEnv)
    (userId : Int) (body : Option Int) : RunResult × DB × List Ev :=
  match body with
  | none => (.err (.Internal "Failed to parse request body"), db, [])
  | some tierId =>
    if ctx.is_me then
      match ctx.stripe_secret_key with
      | none => (.err (.Internal "Missing Stripe secret key"), db,
          [.validateQuery tierId])
      | some _ =>
        match ctx.frontend_host with
        | none => (.err (.Internal "Missing frontend host"), db,
            [.validateQuery tierId])
        | some _ =>
          if env.validateInfraOk then
            match selectTierPlan db tierId with
            | none => (.err (.Custom 400 "No such subscription tier"), db,
                [.validateQuery tierId])
            | some none => (.panicked, db, [.validateQuery tierId])
            | some (some _) =>
              if env.insertInfraOk then
                let sid := db.nextSessionId
                let db1 : DB :=
                  { db with
                    sessions := db.sessions ++ [⟨sid, userId, tierId, none⟩],
                    nextSessionId := db.nextSessionId + 1 }
                if env.emailInfraOk then
                  match selectEmail db userId with
                  | none => (.err (.Internal "Missing user somehow"), db1,
                      [.validateQuery tierId,
                        .insertIntent sid userId tierId none,
                        .emailQuery userId])
                  | some _ =>
                    match env.stripeResponse with
                    | none => (.err (.Internal "Received error from stripe"),
                        db1,
                        [.validateQuery tierId,
                          .insertIntent sid userId tierId none,
                          .emailQuery userId, .externalCall])
                    | some none =>
                        (.err (.Internal "Failed to parse response"), db1,
                          [.validateQuery tierId,
                            .insertIntent sid userId tierId none,
                            .emailQuery userId, .externalCall])
                    | some (some s) =>
                      if env.updateInfraOk then
                        (.ok ⟨200, [("Content-Type", "application/json")],
                            jsonStripeSession s⟩,
                          { db1 with
                            sessions := db1.sessions.map (fun r =>
                              if r.id == sid then { r with stripe_id := some s }
                              else r) },
                          [.validateQuery tierId,
                            .insertIntent sid userId tierId none,
                            .emailQuery userId, .externalCall,
                            .updateStripeId sid s, .respond])
                      else (.err (.Internal "Database error"), db1,
                          [.validateQuery tierId,
                            .insertIntent sid userId tierId none,
                            .emailQuery userId, .externalCall,
                            .updateStripeId sid s])
                else (.err (.Internal "Database error"), db1,
                    [.validateQuery tierId,
                      .insertIntent sid userId tierId none,
                      .emailQuery userId])
              else (.err (.Internal "Database error"), db,
                  [.validateQuery tierId])
          else (.err (.Internal "Database error"), db, [.validateQuery tierId])
    else (.err (.Custom 401 "This endpoint is only available for ~me"), db,
        [.validateQuery tierId])

/-- Claim C1 (amended): in an authorized (`is_me`), fully configured request
whose tier query runs, a target tier id with no row in `subscription_tiers`
yields `Custom` 400 "No such subscription tier" with the database unchanged
(no `subscription_checkout_sessions` row inserted); but a tier row whose
`stripe_plan` is NULL is not mapped to that 400 — `row.get::<_, String>(0)`
panics, producing no response at all (the database is still unchanged). -/
theorem claimC1_thm (db : DB) (ctx : CheckoutCtx) (env : CheckoutEnv)
    (uid tid : Int) (k fh : String)
    (hme : ctx.is_me = true)
    (hkey : ctx.stripe_secret_key = some k)
    (hhost : ctx.frontend_host = some fh)
    (hinfra : env.validateInfraOk = true) :
    (selectTierPlan db tid = none →
      checkout_sessions_path db ctx env uid (some tid)
        = (.err (.Custom 400 "No such subscription tier"), db,
            [.validateQuery tid]))
    ∧ (selectTierPlan db tid = some none →
      checkout_sessions_path db ctx env uid (some tid)
        = (.panicked, db, [.validateQuery tid])) := by
  constructor
  · intro hplan
    simp [checkout_sessions_path, hme, hkey, hhost, hinfra, hplan]
  · intro hplan
    simp [checkout_sessions_path, hme, hkey, hhost, hinfra, hplan]

/-- Counterexample for claim C1: a concrete database holding tier 5 with a
NULL `stripe_plan` (no configured external plan id).  The claim requires a
400 "No such subscription tier" response; the handler instead panics reading
the NULL column, so no `BadRequest` response is produced (though indeed no
session row is inserted). -/
theorem claimC1_counterexample :
    checkout_sessions_path
        ⟨[⟨5, none⟩], [⟨7, "a@b.com"⟩], [], 1⟩
        ⟨true, some "sk_test", some "https://front.example"⟩
        ⟨true, true, true, some (some "cs_test_1"), true⟩
        7 (some 5)
      = (.panicked, ⟨[⟨5, none⟩], [⟨7, "a@b.com"⟩], [], 1⟩,
          [.validateQuery 5])
    ∧ RunResult.panicked
        ≠ RunResult.err (Err.Custom 400 "No such subscription tier") := by
  exact ⟨rfl, by simp⟩

/-- Witness for the amended claim C1 at a concrete database with no tier 5
row at all: the handler returns the 400 response and inserts nothing. -/
theorem claimC1_witness :
    checkout_sessions_path
        ⟨[⟨1, some "plan_basic"⟩], [⟨7, "a@b.com"⟩], [], 1⟩
        ⟨true, some "sk_test", some "https://front.example"⟩
        ⟨true, true, true, some (some "cs_test_1"), true⟩
        7 (some 5)
      = (.err (.Custom 400 "No such subscription tier"),
          ⟨[⟨1, some "plan_basic"⟩], [⟨7, "a@b.com"⟩], [], 1⟩,
          [.validateQuery 5]) :=
  (claimC1_thm ⟨[⟨1, some "plan_basic"⟩], [⟨7, "a@b.com"⟩], [], 1⟩
    ⟨true, some "sk_test", some "https://front.example"⟩
    ⟨true, true, true, some (some "cs_test_1"), true⟩
    7 5 "sk_test" "https://front.example" rfl rfl rfl rfl).1 (by decide)

/-- Event `a` occurs strictly before event `b` in trace `l`. -/
def evBefore (a b : Ev) (l : List Ev) : Prop :=
  ∃ i j, i < j ∧ l.get? i = some a ∧ l.get? j = some b

/-- Helper: if a checkout execution reaches the external call, then on that
execution the body parsed, the request was authorized and configured, the
tier query found a row with a configured plan, the intent insert succeeded,
and the email lookup found the user. -/
theorem checkoutReachAux (db : DB) (ctx : CheckoutCtx) (env : CheckoutEnv)
    (uid : Int) (body : Option Int)
    (hmem : Ev.externalCall ∈ (checkout_sessions_path db ctx env uid body).2.2) :
    ∃ tid plan em, body = some tid ∧ ctx.is_me = true
      ∧ (∃ k, ctx.stripe_secret_key = some k)
      ∧ (∃ fh, ctx.frontend_host = some fh)
      ∧ env.validateInfraOk = true
      ∧ selectTierPlan db tid = some (some plan)
      ∧ env.insertInfraOk = true
      ∧ env.emailInfraOk = true
      ∧ selectEmail db uid = some em := by
  cases body with
  | none => simp [checkout_sessions_path] at hmem
  | some tid =>
    by_cases hme : ctx.is_me = true
    · rcases hkey : ctx.stripe_secret_key with _ | k
      · simp [checkout_sessions_path, hme, hkey] at hmem
      · rcases hhost : ctx.frontend_host with _ | fh
        · simp [checkout_sessions_path, hme, hkey, hhost] at hmem
        · by_cases hv : env.validateInfraOk = true
          · rcases hplan : selectTierPlan db tid with _ | op
            · simp [checkout_sessions_path, hme, hkey, hhost, hv, hplan] at hmem
            · rcases op with _ | plan
              · simp [checkout_sessions_path, hme, hkey, hhost, hv, hplan] at hmem
              · by_cases hins : env.insertInfraOk = true
                · by_cases hml : env.emailInfraOk = true
                  · rcases hem : selectEmail db uid with _ | em
                    · simp [checkout_sessions_path, hme, hkey, hhost, hv,
                        hplan, hins, hml, hem] at hmem
                    · exact ⟨tid, plan, em, rfl, hme, ⟨k, rfl⟩, ⟨fh, rfl⟩,
                        hv, hplan, hins, hml, rfl⟩
                  · simp [checkout_sessions_path, hme, hkey, hhost, hv, hplan,
                      hins, hml] at hmem
                · simp [checkout_sessions_path, hme, hkey, hhost, hv, hplan,
                    hins] at hmem
          · simp [checkout_sessions_path, hme, hkey, hhost, hv] at hmem
    · simp [checkout_sessions_path, hme] at hmem

/-- Helper: updating `stripe_id` by session id leaves a session list alone
when no row carries that id (freshness of the serial id). -/
theorem mapStripeUpdateId (l : List SessionRow) (sid : Int) (s : String)
    (h : ∀ r ∈ l, r.id ≠ sid) :
    l.map (fun r => if r.id == sid then { r with stripe_id := some s } else r)
      = l := by
  induction l with
  | nil => rfl
  | cons a t ih =>
    have ha : a.id ≠ sid := h a (by simp)
    simp only [List.map_cons, List.cons.injEq]
    constructor
    · simp [ha]
    · exact ih (fun r hr => h r (by simp [hr]))

/-- Claim C2 (amended): in every checkout execution that issues the external
call, the body parsed to a tier whose row and plan the validation query found,
and the `subscription_checkout_sessions` intent row (the row with the fresh
serial id and `stripe_id` NULL) was inserted after that validation result and
strictly before the external call; and whenever the external call succeeds
(returns a session identifier) *and the subsequent local UPDATE succeeds*,
the final database holds exactly that same row with `stripe_id` equal to the
returned identifier.  (If the UPDATE itself fails, the row keeps
`stripe_id` NULL — the reconciliation gap the source accepts.) -/
theorem claimC2_thm :
    (∀ (db : DB) (ctx : CheckoutCtx) (env : CheckoutEnv) (uid : Int)
        (body : Option Int),
      Ev.externalCall ∈ (checkout_sessions_path db ctx env uid body).2.2 →
      ∃ tid plan, body = some tid ∧ selectTierPlan db tid = some (some plan) ∧
        evBefore (Ev.insertIntent db.nextSessionId uid tid none)
          Ev.externalCall (checkout_sessions_path db ctx env uid body).2.2)
    ∧
    (∀ (db : DB) (ctx : CheckoutCtx) (env : CheckoutEnv) (uid tid : Int)
        (s : String),
      (∀ r ∈ db.sessions, r.id ≠ db.nextSessionId) →
      env.stripeResponse = some (some s) →
      env.updateInfraOk = true →
      Ev.externalCall ∈ (checkout_sessions_path db ctx env uid (some tid)).2.2 →
      (checkout_sessions_path db ctx env uid (some tid)).2.1.sessions
        = db.sessions ++ [⟨db.nextSessionId, uid, tid, some s⟩]) := by
  constructor
  · intro db ctx env uid body hmem
    obtain ⟨tid, plan, em, hbody, hme, ⟨k, hkey⟩, ⟨fh, hhost⟩, hv, hplan,
      hins, hml, hem⟩ := checkoutReachAux db ctx env uid body hmem
    subst hbody
    refine ⟨tid, plan, rfl, hplan, ?_⟩
    rcases hsr : env.stripeResponse with _ | osr
    · have hevs : (checkout_sessions_path db ctx env uid (some tid)).2.2
          = [.validateQuery tid, .insertIntent db.nextSessionId uid tid none,
              .emailQuery uid, .externalCall] := by
        simp [checkout_sessions_path, hme, hkey, hhost, hv, hplan, hins, hml,
          hem, hsr]
      rw [hevs]
      exact ⟨1, 3, by omega, rfl, rfl⟩
    · rcases osr with _ | s
      · have hevs : (checkout_sessions_path db ctx env uid (some tid)).2.2
            = [.validateQuery tid, .insertIntent db.nextSessionId uid tid none,
                .emailQuery uid, .externalCall] := by
          simp [checkout_sessions_path, hme, hkey, hhost, hv, hplan, hins,
            hml, hem, hsr]
        rw [hevs]
        exact ⟨1, 3, by omega, rfl, rfl⟩
      · by_cases hupd : env.updateInfraOk = true
        · have hevs : (checkout_sessions_path db ctx env uid (some tid)).2.2
              = [.validateQuery tid,
                  .insertIntent db.nextSessionId uid tid none,
                  .emailQuery uid, .externalCall,
                  .updateStripeId db.nextSessionId s, .respond] := by
            simp [checkout_sessions_path, hme, hkey, hhost, hv, hplan, hins,
              hml, hem, hsr, hupd]
          rw [hevs]
          exact ⟨1, 3, by omega, rfl, rfl⟩
        · have hevs : (checkout_sessions_path db ctx env uid (some tid)).2.2
              = [.validateQuery tid,
                  .insertIntent db.nextSessionId uid tid none,
                  .emailQuery uid, .externalCall,
                  .updateStripeId db.nextSessionId s] := by
            simp [checkout_sessions_path, hme, hkey, hhost, hv, hplan, hins,
              hml, hem, hsr, hupd]
          rw [hevs]
          exact ⟨1, 3, by omega, rfl, rfl⟩
  · intro db ctx env uid tid s hfresh hsr hupd hmem
    obtain ⟨tid2, plan, em, hbody, hme, ⟨k, hkey⟩, ⟨fh, hhost⟩, hv, hplan,
      hins, hml, hem⟩ := checkoutReachAux db ctx env uid (some tid) hmem
    have htid : tid = tid2 := by injection hbody
    subst htid
    have hdb : (checkout_sessions_path db ctx env uid (some tid)).2.1.sessions
        = (db.sessions ++ [(⟨db.nextSessionId, uid, tid, none⟩ : SessionRow)]).map
            (fun (r : SessionRow) => if r.id == db.nextSessionId
              then { r with stripe_id := some s } else r) := by
      simp [checkout_sessions_path, hme, hkey, hhost, hv, hplan, hins, hml,
        hem, hsr, hupd]
    rw [hdb, List.map_append, mapStripeUpdateId db.sessions db.nextSessionId
      s hfresh]
    simp

/-- Counterexample for claim C2: a concrete execution in which the external
call succeeds (the provider returns identifier "cs_1") but the subsequent
local UPDATE fails: the inserted row keeps `stripe_id` NULL, so it is not
true that whenever the external call succeeds the row's `stripe_id` equals
the returned identifier. -/
theorem claimC2_counterexample :
    checkout_sessions_path ⟨[⟨5, some "plan_1"⟩], [⟨7, "a@b.com"⟩], [], 1⟩
        ⟨true, some "sk_test", some "https://front.example"⟩
        ⟨true, true, true, some (some "cs_1"), false⟩ 7 (some 5)
      = (.err (.Internal "Database error"),
          ⟨[⟨5, some "plan_1"⟩], [⟨7, "a@b.com"⟩], [⟨1, 7, 5, none⟩], 2⟩,
          [.validateQuery 5, .insertIntent 1 7 5 none, .emailQuery 7,
            .externalCall, .updateStripeId 1 "cs_1"])
    ∧ (checkout_sessions_path ⟨[⟨5, some "plan_1"⟩], [⟨7, "a@b.com"⟩], [], 1⟩
        ⟨true, some "sk_test", some "https://front.example"⟩
        ⟨true, true, true, some (some "cs_1"), false⟩ 7
        (some 5)).2.1.sessions.map (fun r => r.stripe_id) = [none]
    ∧ (none : Option String) ≠ some "cs_1" := by
  refine ⟨rfl, rfl, by simp⟩

/-- Witness for the amended claim C2 at a concrete all-success execution:
the external call happens and the final database holds the inserted row with
the provider's identifier. -/
theorem claimC2_witness :
    (checkout_sessions_path ⟨[⟨5, some "plan_1"⟩], [⟨7, "a@b.com"⟩], [], 1⟩
        ⟨true, some "sk_test", some "https://front.example"⟩
        ⟨true, true, true, some (some "cs_1"), true⟩ 7
        (some 5)).2.1.sessions
      = [⟨1, 7, 5, some "cs_1"⟩] :=
  claimC2_thm.2 ⟨[⟨5, some "plan_1"⟩], [⟨7, "a@b.com"⟩], [], 1⟩
    ⟨true, some "sk_test", some "https://front.example"⟩
    ⟨true, true, true, some (some "cs_1"), true⟩ 7 5 "cs_1"
    (by simp) rfl rfl (by decide)

/-- `TierInfo` (src/main.rs lines 52-60): the cached shape of a subscription
tier. -/
structure TierInfo where
  id : Int
  name : String
  stripe_plan : Option String
  visit_limit : Int
  monthly_price : Option Nat
deriving DecidableEq

/-- A row of `SELECT id, name, stripe_plan, visit_limit FROM
subscription_tiers` as `retrieve_plans` reads it. -/
structure TierDbRow where
  id : Int
  name : String
  stripe_plan : Option String
  visit_limit : Int
deriving DecidableEq

/-- The tier list `retrieve_plans` builds from the database rows
(src/main.rs lines 333-344): prices start unresolved (`none`) except tier id
0, which is hardcoded to price 0. -/
def baseTiers (rows : List TierDbRow) : List TierInfo :=
  rows.map (fun r =>
    ⟨r.id, r.name, r.stripe_plan, r.visit_limit,
      if r.id = 0 then some 0 else none⟩)

/-- One per-tier price write (src/main.rs lines 408-420): under the write
lock, find the first tier with the fetched id and set its `monthly_price`
(the source's `for .. \x7b if tier.id == tier_id \x7b ..; break \x7d \x7d`
loop). -/
def patchPrice : List TierInfo → Int → Nat → List TierInfo
  | [], _, _ => []
  | t :: rest, tid, amount =>
    if t.id = tid then { t with monthly_price := some amount } :: rest
    else t :: patchPrice rest tid amount

/-- The cache states a reader can observe across one `retrieve_plans` cycle
(src/main.rs lines 324-445): the previous cache `old`; then, after the swap
`*server_state.tiers.write().unwrap() = tiers;` (line 438), the freshly built
list with unresolved prices; then one further state per completed price
fetch, each produced by an in-place `patchPrice` write under the write lock.
`completions` is the sequence of successful fetches `(tier id, amount)` in
completion order — the fetches run concurrently, so any order (and any
subset, for failed lookups) is possible. -/
def retrievePlansStates (old : List TierInfo) (rows : List TierDbRow)
    (completions : List (Int × Nat)) : List (List TierInfo) :=
  old :: List.scanl (fun st c => patchPrice st c.1 c.2) (baseTiers rows)
    completions

/-- Helper: every element of a `scanl` is the fold of some prefix. -/
theorem memScanlPrefix {α β : Type} (f : β → α → β) (b : β) (l : List α)
    (s : β) (h : s ∈ List.scanl f b l) :
    ∃ k, s = (l.take k).foldl f b := by
  induction l generalizing b with
  | nil =>
    simp [List.scanl] at h
    exact ⟨0, by simp [h]⟩
  | cons x xs ih =>
    rw [List.scanl] at h
    rcases List.mem_cons.mp h with h1 | h2
    · exact ⟨0, by simp [h1]⟩
    · obtain ⟨k, hk⟩ := ih (f b x) h2
      exact ⟨k + 1, by simpa using hk⟩

/-- The price-independent part of a cached tier (id, name, plan, limit). -/
def tierShape (t : TierInfo) : Int × String × Option String × Int :=
  (t.id, t.name, t.stripe_plan, t.visit_limit)

/-- Helper: a per-tier price write changes no tier's id, name, plan or
visit limit, and keeps the list's length and order. -/
theorem patchPriceShape (l : List TierInfo) (tid : Int) (amount : Nat) :
    (patchPrice l tid amount).map tierShape = l.map tierShape := by
  induction l with
  | nil => rfl
  | cons t rest ih =>
    by_cases h : t.id = tid
    · simp [patchPrice, h, tierShape]
    · simp [patchPrice, h, ih]

/-- Helper: any sequence of per-tier price writes preserves the shape. -/
theorem foldPatchShape (completions : List (Int × Nat)) (base : List TierInfo) :
    ((completions.foldl (fun st c => patchPrice st c.1 c.2) base).map tierShape)
      = base.map tierShape := by
  induction completions generalizing base with
  | nil => rfl
  | cons c cs ih =>
    rw [List.foldl_cons, ih, patchPriceShape]

/-- Claim C4 (amended): during one `retrieve_plans` cycle every observable
cache state is either the complete previous list or a whole-list snapshot
obtained from the freshly built tier list (prices unresolved except the free
tier 0, hardcoded to 0) by applying some prefix of the completed price
fetches; each such write is atomic and whole-list (same tiers, names, plans
and limits as the new list) — but the final prices arrive incrementally,
one write-lock write per fetched tier, after the swap, rather than in the
swap itself. -/
theorem claimC4_thm (old : List TierInfo) (rows : List TierDbRow)
    (completions : List (Int × Nat)) (s : List TierInfo)
    (h : s ∈ retrievePlansStates old rows completions) :
    s = old
    ∨ (∃ k, s = (completions.take k).foldl
          (fun st c => patchPrice st c.1 c.2) (baseTiers rows))
      ∧ s.map tierShape = (baseTiers rows).map tierShape := by
  rcases List.mem_cons.mp h with h1 | h2
  · exact Or.inl h1
  · obtain ⟨k, hk⟩ := memScanlPrefix _ _ _ _ h2
    refine Or.inr ⟨⟨k, hk⟩, ?_⟩
    rw [hk, foldPatchShape]

/-- Counterexample for claim C4: a concrete cycle over two tiers, both with
configured plans and both fetches succeeding (amounts 500 and 900).  The
state right after the swap — both prices still unresolved — is observable by
a concurrent reader, and it is neither the previous cache (empty) nor the
complete new list with final prices; likewise the state with only tier 1
priced is observable.  So the cycle is not a single atomic whole-snapshot
replacement carrying final prices. -/
theorem claimC4_counterexample :
    patchPrice (baseTiers [⟨1, "basic", some "p1", 100⟩,
        ⟨2, "pro", some "p2", 1000⟩]) 1 500
      ∈ retrievePlansStates []
          [⟨1, "basic", some "p1", 100⟩, ⟨2, "pro", some "p2", 1000⟩]
          [(1, 500), (2, 900)]
    ∧ patchPrice (baseTiers [⟨1, "basic", some "p1", 100⟩,
        ⟨2, "pro", some "p2", 1000⟩]) 1 500 ≠ []
    ∧ patchPrice (baseTiers [⟨1, "basic", some "p1", 100⟩,
        ⟨2, "pro", some "p2", 1000⟩]) 1 500
      ≠ [(1, 500), (2, 900)].foldl (fun st c => patchPrice st c.1 c.2)
          (baseTiers [⟨1, "basic", some "p1", 100⟩,
            ⟨2, "pro", some "p2", 1000⟩]) := by
  refine ⟨?_, ?_, ?_⟩
  · simp [retrievePlansStates, List.scanl, baseTiers, patchPrice]
  · simp [baseTiers, patchPrice]
  · simp [baseTiers, patchPrice]

/-- Witness for the amended claim C4: the mid-cycle state with only tier 1
priced is the fold of the one-element prefix of the completions, and shares
the new list's shape. -/
theorem claimC4_witness :
    patchPrice (baseTiers [⟨1, "basic", some "p1", 100⟩,
        ⟨2, "pro", some "p2", 1000⟩]) 1 500 = []
    ∨ (∃ k, patchPrice (baseTiers [⟨1, "basic", some "p1", 100⟩,
          ⟨2, "pro", some "p2", 1000⟩]) 1 500
        = ([(1, 500), (2, 900)].take k).foldl
            (fun st c => patchPrice st c.1 c.2)
            (baseTiers [⟨1, "basic", some "p1", 100⟩,
              ⟨2, "pro", some "p2", 1000⟩]))
      ∧ (patchPrice (baseTiers [⟨1, "basic", some "p1", 100⟩,
            ⟨2, "pro", some "p2", 1000⟩]) 1 500).map tierShape
        = (baseTiers [⟨1, "basic", some "p1", 100⟩,
            ⟨2, "pro", some "p2", 1000⟩]).map tierShape :=
  claimC4_thm [] [⟨1, "basic", some "p1", 100⟩, ⟨2, "pro", some "p2", 1000⟩]
    [(1, 500), (2, 900)] _
    (by simp [retrievePlansStates, List.scanl, baseTiers, patchPrice])

/-- A row of `redirects` with the columns the PATCH handler can read or
write. -/
structure RedirectRow where
  id : Int
  host : String
  destination : String
  owner : Int
  cache_visit_count_total : Option Int
  cache_visit_count_month : Option Int
deriving DecidableEq

/-- `SELECT owner FROM redirects WHERE id=$1` followed by
`.into_future()`. -/
def selectRedirectOwner (rds : List RedirectRow) (id : Int) : Option Int :=
  (rds.find? (fun r => r.id == id)).map (fun r => r.owner)

/-- Injected infrastructure outcomes for one redirect PATCH. -/
structure PatchEnv where
  selectInfraOk : Bool
  updateInfraOk : Bool
deriving DecidableEq

/-- Database operations of one redirect PATCH execution. -/
inductive PatchEv where
  | ownerQuery (id : Int)
  | updateExec (id : Int) (destination : String)
deriving DecidableEq

/-- The PATCH arm of `redirect_path` (src/routes/redirects.rs lines
133-213).  `login` is the resolution of `rd_login` (which the source `join`s
with the owner query); `body` is the parse result of the JSON body
(`none` = invalid JSON, `some d` = a `RedirectPatchBody` whose optional
`destination` field is `d`).  When no recognized field is present the
`changes` map is empty and the handler answers 200 with an empty body
without running any UPDATE (lines 183-184, 208-212); otherwise it builds and
executes `UPDATE redirects SET "destination" = $2 WHERE id=$1`. -/
def redirect_path (rds : List RedirectRow) (env : PatchEnv)
    (login : Except Err (Option Int)) (id : Int)
    (body : Option (Option String)) :
    RunResult × List RedirectRow × List PatchEv :=
  match login with
  | .error e => (.err e, rds, [.ownerQuery id])
  | .ok login_user =>
    if env.selectInfraOk then
      match selectRedirectOwner rds id with
      | none => (.err (.Custom 404 "No such redirect"), rds, [.ownerQuery id])
      | some owner =>
        match login_user with
        | none => (.err (.Custom 401 "Login is required to access redirects"),
            rds, [.ownerQuery id])
        | some u =>
          if owner == u then
            match body with
            | none => (.err (.Internal "Failed to parse request body"), rds,
                [.ownerQuery id])
            | some none => (.ok ⟨200, [], ""⟩, rds, [.ownerQuery id])
            | some (some dest) =>
              if env.updateInfraOk then
                (.ok ⟨200, [], ""⟩,
                  rds.map (fun r => if r.id == id
                    then { r with destination := dest } else r),
                  [.ownerQuery id, .updateExec id dest])
              else (.err (.Internal "Database error"), rds,
                  [.ownerQuery id, .updateExec id dest])
          else (.err (.Custom 403 "That's not your redirect"), rds,
              [.ownerQuery id])
    else (.err (.Internal "Database error"), rds, [.ownerQuery id])

/-- Claim C10: a PATCH on an existing redirect issued by its authenticated
owner whose JSON body has no recognized field (`destination` absent) runs no
UPDATE (the event list holds only the owner lookup), returns a 200 response
with an empty body, and leaves every field of every `redirects` row — the
whole relation — unchanged. -/
theorem claimC10_thm (rds : List RedirectRow) (env : PatchEnv)
    (id ow : Int)
    (hsel : env.selectInfraOk = true)
    (hown : selectRedirectOwner rds id = some ow) :
    redirect_path rds env (.ok (some ow)) id (some none)
      = (.ok ⟨200, [], ""⟩, rds, [.ownerQuery id]) := by
  simp [redirect_path, hsel, hown]

/-- Witness for claim C10 at a concrete database: owner 7 patches their
redirect 3 with an empty patch body; the relation is untouched and the
response is an empty 200. -/
theorem claimC10_witness :
    redirect_path [⟨3, "r.example", "https://dest.example", 7, none, none⟩]
        ⟨true, true⟩ (.ok (some 7)) 3 (some none)
      = (.ok ⟨200, [], ""⟩,
          [⟨3, "r.example", "https://dest.example", 7, none, none⟩],
          [.ownerQuery 3]) :=
  claimC10_thm [⟨3, "r.example", "https://dest.example", 7, none, none⟩]
    ⟨true, true⟩ 3 7 rfl (by decide)

/-- `true` iff a response carries no `Access-Control-Allow-Origin` header. -/
def noCORSb (r : Response) : Bool :=
  r.headers.all (fun h => h.1 != "Access-Control-Allow-Origin")

/-- Helper: every successful checkout response carries exactly the
`Content-Type: application/json` header the handler sets. -/
theorem checkoutOkHeaders (db : DB) (ctx : CheckoutCtx) (env : CheckoutEnv)
    (uid : Int) (body : Option Int) (r : Response) (db2 : DB) (evs : List Ev)
    (h : checkout_sessions_path db ctx env uid body = (RunResult.ok r, db2, evs)) :
    r.headers = [("Content-Type", "application/json")] := by
  unfold checkout_sessions_path at h
  repeat' split at h
  all_goals simp_all
  all_goals (rcases h with ⟨h1, h2, h3⟩; subst h1; rfl)

/-- Helper: every successful redirect-PATCH response carries no headers at
all. -/
theorem redirectOkHeaders (rds : List RedirectRow) (env : PatchEnv)
    (login : Except Err (Option Int)) (id : Int)
    (body : Option (Option String)) (r : Response) (rds2 : List RedirectRow)
    (evs : List PatchEv)
    (h : redirect_path rds env login id body = (RunResult.ok r, rds2, evs)) :
    r.headers = [] := by
  unfold redirect_path at h
  repeat' split at h
  all_goals simp_all
  all_goals (rcases h with ⟨h1, h2, h3⟩; subst h1; rfl)

/-- Claim C8 (amended): no response of the service carries a CORS
allow-all-origins header.  The central response stage (`handle_request`'s
error mapping) attaches no headers at all — every error response, `Custom`
ones included, has an empty header list — and the embedded handlers' success
responses carry at most a `Content-Type`; no stage, central or per-handler,
sets `Access-Control-Allow-Origin`. -/
theorem claimC8_thm :
    (∀ e, (errorResponse e).headers = [])
    ∧ (∀ (db : DB) (ctx : CheckoutCtx) (env : CheckoutEnv) (uid : Int)
        (body : Option Int) (r : Response) (db2 : DB) (evs : List Ev),
        checkout_sessions_path db ctx env uid body = (RunResult.ok r, db2, evs) →
        noCORSb r = true)
    ∧ (∀ (rds : List RedirectRow) (env : PatchEnv)
        (login : Except Err (Option Int)) (id : Int)
        (body : Option (Option String)) (r : Response)
        (rds2 : List RedirectRow) (evs : List PatchEv),
        redirect_path rds env login id body = (RunResult.ok r, rds2, evs) →
        noCORSb r = true)
    ∧ (∀ e, noCORSb (errorResponse e) = true) := by
  refine ⟨?_, ?_, ?_, ?_⟩
  · intro e; cases e <;> rfl
  · intro db ctx env uid body r db2 evs h
    have hh := checkoutOkHeaders db ctx env uid body r db2 evs h
    simp [noCORSb, hh]
  · intro rds env login id body r rds2 evs h
    have hh := redirectOkHeaders rds env login id body r rds2 evs h
    simp [noCORSb, hh]
  · intro e; cases e <;> rfl

/-- Counterexample for claim C8: the response the central stage produces for
`NotFound` — a response of the service — carries no headers, in particular
no permissive CORS allow-all-origins header. -/
theorem claimC8_counterexample :
    errorResponse Err.NotFound = ⟨404, [], "Not Found"⟩
    ∧ noCORSb (errorResponse Err.NotFound) = true
    ∧ (errorResponse Err.NotFound).headers.length = 0 := by
  exact ⟨rfl, rfl, rfl⟩

/-- Witness for the amended claim C8 at a concrete successful checkout
response: its only header is the Content-Type, so it carries no CORS
header. -/
theorem claimC8_witness :
    noCORSb ⟨200, [("Content-Type", "application/json")],
        jsonStripeSession "cs_1"⟩ = true :=
  claimC8_thm.2.1 ⟨[⟨5, some "plan_1"⟩], [⟨7, "a@b.com"⟩], [], 1⟩
    ⟨true, some "sk_test", some "https://front.example"⟩
    ⟨true, true, true, some (some "cs_1"), true⟩ 7 (some 5)
    ⟨200, [("Content-Type", "application/json")], jsonStripeSession "cs_1"⟩
    ⟨[⟨5, some "plan_1"⟩], [⟨7, "a@b.com"⟩], [⟨1, 7, 5, some "cs_1"⟩], 2⟩
    [.validateQuery 5, .insertIntent 1 7 5 none, .emailQuery 7,
      .externalCall, .updateStripeId 1 "cs_1", .respond]
    rfl
